import Mathlib

/-!
Shallow embedding of `mqtt2influx.py` (class `Mqtt2InfluxDb`), the bridge that
subscribes to an MQTT topic, transforms each JSON payload into one InfluxDB
data point, and writes it.

Modelling conventions:
* Python exceptions become `Except PyErr`; a raised exception is an early
  `.error` return, a bare `except:` is a `match` on the `Except`.
* JSON values (the result of the third-party `json.loads`) are the inductive
  `JVal`.  Python floats are modelled by `ℚ` (the transform only parses and
  stores numbers, it never does float arithmetic, so exact rationals are a
  faithful abstraction of the parsed numerals).
* The byte string of an MQTT message is modelled at the granularity the
  program observes it through the third-party decoders (`bytes.decode` and
  `json.loads`): `RawPayload` records whether UTF-8 decoding succeeds (and to
  which text) and whether JSON parsing succeeds (and to which `JVal`).
* `datetime.datetime.fromtimestamp(t, tz)` with a pytz timezone returns a
  timezone-aware datetime denoting the instant `t` seconds after the epoch
  with the timezone attached; `PyDateTime` keeps exactly that information
  (calendar-field rendering and the datetime year range are irrelevant to
  every property considered here).
-/

/-- The Python exceptions that the bridge code can raise or catch. -/
inductive PyErr where
  | unicodeDecodeError
  | jsonDecodeError
  | keyError (key : String)
  | valueError
  | typeError
deriving DecidableEq

/-- JSON values as produced by `json.loads`: Python `None`, `bool`, `int`,
`float` (modelled by `ℚ`), `str`, `list`, `dict`. -/
inductive JVal where
  | jnull
  | jbool (b : Bool)
  | jint (n : Int)
  | jfloat (q : ℚ)
  | jstr (s : String)
  | jarr (xs : List JVal)
  | jobj (kvs : List (String × JVal))

/-- Lookup in a Python dict built by `json.loads` from a key/value list:
a duplicated key keeps the last occurrence, exactly as `json.loads` does. -/
def dictLookup (kvs : List (String × JVal)) (k : String) : Option JVal :=
  match kvs with
  | [] => none
  | (k₀, v₀) :: rest =>
    match dictLookup rest k with
    | some v => some v
    | none => if k₀ = k then some v₀ else none

/-- Python subscript `v[k]` with a string key: succeeds only on a dict that
has the key (`KeyError` when the key is absent, `TypeError` when `v` is not a
dict, as for `5["timestamp"]` or `"x"["timestamp"]`). -/
def pySubscript (v : JVal) (k : String) : Except PyErr JVal :=
  match v with
  | .jobj kvs =>
    match dictLookup kvs k with
    | some x => .ok x
    | none => .error (.keyError k)
  | _ => .error .typeError

/-- Characters stripped by Python numeric-string conversion (`int(s)`,
`float(s)` ignore surrounding ASCII whitespace). -/
def isPyWhitespace (c : Char) : Bool :=
  c = ' ' || c = '\t' || c = '\n' || c = '\r' || c = '\x0b' || c = '\x0c'

/-- Strip surrounding whitespace from a character list. -/
def stripWhitespace (cs : List Char) : List Char :=
  ((cs.dropWhile isPyWhitespace).reverse.dropWhile isPyWhitespace).reverse

/-- Split a leading run of ASCII digits from the rest. -/
def spanDigits : List Char → List Char × List Char
  | [] => ([], [])
  | c :: cs =>
    if c.isDigit then
      let (ds, rest) := spanDigits cs
      (c :: ds, rest)
    else ([], c :: cs)

/-- Consume an optional leading sign, returning the sign as `1` or `-1`. -/
def parseSign : List Char → Int × List Char
  | '+' :: cs => (1, cs)
  | '-' :: cs => (-1, cs)
  | cs => (1, cs)

/-- Numeric value of a digit run. -/
def digitsToNat (ds : List Char) : Nat :=
  ds.foldl (fun a c => 10 * a + (c.toNat - 48)) 0

/-- Parse the optional exponent suffix of a Python float literal: empty, or
`e`/`E`, an optional sign and a nonempty digit run consuming the whole rest. -/
def parseFloatExponent : List Char → Option Int
  | [] => some 0
  | c :: cs =>
    if c = 'e' || c = 'E' then
      let (sgn, cs₁) := parseSign cs
      let (ds, rest) := spanDigits cs₁
      if ds.isEmpty || !rest.isEmpty then none else some (sgn * (digitsToNat ds : Int))
    else none

/-- The rational `m / 10 ^ fracLen * 10 ^ e`, computed with integer
arithmetic only (`mkRat` normalizes), for a mantissa read as `m` with
`fracLen` digits after the point and a decimal exponent `e`. -/
def decimalToRat (m : Int) (fracLen : Nat) (e : Int) : ℚ :=
  mkRat (m * ((10 : Int) ^ e.toNat)) (10 ^ fracLen * 10 ^ (-e).toNat)

/-- Parse a stripped, signless mantissa-plus-exponent: digit run, optional
point and second digit run (at least one digit overall), optional exponent. -/
def parseFloatBody (cs : List Char) : Option ℚ :=
  let (ip, cs₁) := spanDigits cs
  match cs₁ with
  | '.' :: cs₂ =>
    let (fp, cs₃) := spanDigits cs₂
    if ip.isEmpty && fp.isEmpty then none
    else
      match parseFloatExponent cs₃ with
      | none => none
      | some e =>
        some (decimalToRat
          ((digitsToNat ip * 10 ^ fp.length + digitsToNat fp : Nat) : Int)
          fp.length e)
  | rest =>
    if ip.isEmpty then none
    else
      match parseFloatExponent rest with
      | none => none
      | some e => some (decimalToRat ((digitsToNat ip : Nat) : Int) 0 e)

/-- Python `float(s)` on a string: strip whitespace, optional sign, decimal
mantissa with optional fraction and exponent.  `none` models the
`ValueError` raised on any other string.  (The special literals
`inf`/`nan`, digit-group underscores and non-ASCII digits are not modelled;
no payload considered by the specification uses them, and they never turn a
parseable string of the claims into an unparseable one.) -/
def parseFloatStr (s : String) : Option ℚ :=
  let cs := stripWhitespace s.toList
  let (sgn, cs₁) := parseSign cs
  match parseFloatBody cs₁ with
  | none => none
  | some q => some (if sgn < 0 then -q else q)

/-- Python `int(s)` on a string: strip whitespace, optional sign, nonempty
digit run and nothing else; `none` models the `ValueError` otherwise
(so `int("12.5")` fails). -/
def parseIntStr (s : String) : Option Int :=
  let cs := stripWhitespace s.toList
  let (sgn, cs₁) := parseSign cs
  let (ds, rest) := spanDigits cs₁
  if ds.isEmpty || !rest.isEmpty then none else some (sgn * (digitsToNat ds : Int))

/-- Truncation toward zero, the rounding of Python `int(float)`. -/
def truncRat (q : ℚ) : Int :=
  if q < 0 then -(Int.floor (-q)) else Int.floor q

/-- Python `int(x)` on a JSON value: identity on `int`, truncation on
`float`, `0`/`1` on `bool`, string parsing on `str`; `TypeError` on `None`,
lists and dicts, `ValueError` on a non-integer string. -/
def pyInt : JVal → Except PyErr Int
  | .jint n => .ok n
  | .jfloat q => .ok (truncRat q)
  | .jbool b => .ok (if b then 1 else 0)
  | .jstr s =>
    match parseIntStr s with
    | some n => .ok n
    | none => .error .valueError
  | .jnull => .error .typeError
  | .jarr _ => .error .typeError
  | .jobj _ => .error .typeError

/-- Python `float(x)` on a JSON value: exact on `int` and `float`, `0.0`/`1.0`
on `bool`, `parseFloatStr` on `str`; `TypeError` on `None`, lists and dicts,
`ValueError` on an unparseable string. -/
def pyFloat : JVal → Except PyErr ℚ
  | .jint n => .ok (mkRat n 1)
  | .jfloat q => .ok q
  | .jbool b => .ok (if b then mkRat 1 1 else mkRat 0 1)
  | .jstr s =>
    match parseFloatStr s with
    | some q => .ok q
    | none => .error .valueError
  | .jnull => .error .typeError
  | .jarr _ => .error .typeError
  | .jobj _ => .error .typeError

/-- A timezone-aware Python datetime, kept as the instant it denotes
(seconds since the epoch) together with the attached timezone name. -/
structure PyDateTime where
  epochSeconds : Int
  tzName : String

/-- `datetime.datetime.fromtimestamp(t, pytz.timezone(tz))`: the
timezone-aware instant `t` seconds after the epoch. -/
def fromtimestamp (t : Int) (tz : String) : PyDateTime :=
  ⟨t, tz⟩

/-- The one field value of a data point: a Python float when the numeric
coercion succeeded, otherwise the original JSON value retained unchanged. -/
inductive FieldValue where
  | fnum (q : ℚ)
  | orig (v : JVal)

/-- The dict handed to `influx.write_points`: measurement name, time, and
the `fields` dict. -/
structure DataPoint where
  measurement : String
  time : PyDateTime
  fields : List (String × FieldValue)

/-- The payload bytes of an MQTT message, modelled at the granularity the
bridge observes through `bytes.decode` and `json.loads` (both third-party):
either UTF-8 decoding fails, or it yields a text on which JSON parsing
fails, or it yields a text that parses to a JSON value. -/
inductive RawPayload where
  | invalidUtf8
  | invalidJson (text : String)
  | jsonVal (text : String) (v : JVal)

/-- `msg.payload.decode("utf-8")`: the decoded text, or `none` for the
`UnicodeDecodeError`. -/
def utf8Text : RawPayload → Option String
  | .invalidUtf8 => none
  | .invalidJson t => some t
  | .jsonVal t _ => some t

/-- `json.loads(msg.payload.decode("utf-8"))` as evaluated inside
`createDataSet`: the `UnicodeDecodeError` of the byte decode, the
`JSONDecodeError` of the parse, or the parsed value. -/
def jsonLoads : RawPayload → Except PyErr JVal
  | .invalidUtf8 => .error .unicodeDecodeError
  | .invalidJson _ => .error .jsonDecodeError
  | .jsonVal _ v => .ok v

/-- An inbound MQTT message: topic and payload bytes. -/
structure MqttMsg where
  topic : String
  payload : RawPayload

/-- The `value` step of `createDataSet`:
`try: value = float(payload["value"]) except: value = payload["value"]`.
When the subscript itself raises (missing key), the bare `except` re-runs
`payload["value"]`, which raises the same exception again, now uncaught —
so a subscript failure propagates while only a `float` coercion failure is
absorbed with the original value retained. -/
def coerceValue (payload : JVal) : Except PyErr FieldValue :=
  match pySubscript payload "value" with
  | .error e => .error e
  | .ok v =>
    match pyFloat v with
    | .ok q => .ok (.fnum q)
    | .error _ => .ok (.orig v)

/-- `Mqtt2InfluxDb.createDataSet` (lines 85 to 104 of the source): decode the
payload as JSON, coerce `payload["timestamp"]` to an integer, build the
timezone-aware time with the hardcoded `Europe/Berlin` timezone, take the
topic as measurement, coerce `payload["value"]` (retaining it on coercion
failure) and return the single-element list of points.  Each Python
exception propagates as an `.error`. -/
def createDataSet (msg : MqttMsg) : Except PyErr (List DataPoint) :=
  match jsonLoads msg.payload with
  | .error e => .error e
  | .ok payload =>
    match pySubscript payload "timestamp" with
    | .error e => .error e
    | .ok tsv =>
      match pyInt tsv with
      | .error e => .error e
      | .ok timestamp =>
        let time := fromtimestamp timestamp "Europe/Berlin"
        let messurement := msg.topic
        match coerceValue payload with
        | .error e => .error e
        | .ok value =>
          .ok [{ measurement := messurement, time := time,
                 fields := [("value", value)] }]

/-- A log line: severity and message text. -/
inductive LogLevel where
  | debug
  | info
  | error
deriving DecidableEq

/-- One emitted log record. -/
structure LogEntry where
  level : LogLevel
  message : String

/-- Python `str(e)` for the modelled exceptions, as interpolated into the
error log lines.  (The exact library wording is irrelevant; the model only
needs the text to identify the exception.) -/
def pyErrStr : PyErr → String
  | .unicodeDecodeError => "UnicodeDecodeError"
  | .jsonDecodeError => "JSONDecodeError"
  | .keyError k => "KeyError: " ++ k
  | .valueError => "ValueError"
  | .typeError => "TypeError"

/-- Everything observable about one `__onMessage` invocation: the log lines
emitted, the batches successfully handed to `influx.write_points`, and the
exception escaping the callback, when one does. -/
structure MsgOutcome where
  logs : List LogEntry
  written : List (List DataPoint)
  escaped : Option PyErr

/-- `Mqtt2InfluxDb.__onMessage` (lines 73 to 83 of the source).  The
`writePoints` argument models `influx.write_points`, which either succeeds
or raises an exception with the given text.  Note the source logs
`"Received: " + msg.payload.decode("utf-8") + ...` BEFORE the `try` block:
on a payload that is not valid UTF-8 the decode raises there, outside every
handler, and the exception escapes the callback. -/
def onMessage (msg : MqttMsg)
    (writePoints : List DataPoint → Except String Unit) : MsgOutcome :=
  match utf8Text msg.payload with
  | none => { logs := [], written := [], escaped := some .unicodeDecodeError }
  | some text =>
    let received : LogEntry :=
      ⟨.debug, "Received: " ++ text ++ " on " ++ msg.topic⟩
    match createDataSet msg with
    | .error e =>
      { logs := [received, ⟨.error, "Decoding of JSON failed: " ++ pyErrStr e⟩],
        written := [], escaped := none }
    | .ok data =>
      if data.length = 0 then
        { logs := [received], written := [], escaped := none }
      else
        match writePoints data with
        | .ok _ => { logs := [received], written := [data], escaped := none }
        | .error e =>
          { logs := [received,
                     ⟨.error, "Failed sending data to influxdb: " ++ e⟩],
            written := [], escaped := none }

/-- The receive loop (`mqtt.loop_forever` driving `__onMessage` once per
inbound message, serially).  Each list entry pairs a message with the
behaviour of the database write call for that message.  An exception that
escapes the callback propagates out of the paho loop and aborts it; a
handled message lets the loop continue with the rest. -/
def runLoop :
    List (MqttMsg × (List DataPoint → Except String Unit)) → List MsgOutcome
  | [] => []
  | (m, w) :: rest =>
    let o := onMessage m w
    match o.escaped with
    | some _ => [o]
    | none => o :: runLoop rest

/-- The `[mqtt]` section of the configuration. -/
structure MqttConfig where
  host : String
  port : String
  username : String
  password : String
  topic : String

/-- The `[influxdb]` section of the configuration. -/
structure InfluxConfig where
  host : String
  port : String
  username : String
  password : String
  database : String

/-- Everything observable about initialization: the log lines, whether
`quit()` was reached (immediate process termination), and which of the two
clients were brought up. -/
structure InitOutcome where
  logs : List LogEntry
  terminated : Bool
  mqttConnected : Bool
  influxReady : Bool

/-- `Mqtt2InfluxDb.__initMqttClient` (lines 46 to 56): attempt the broker
connection (`connectRaises` models whether `mqtt.connect` raises); on
failure log the error naming host and port and call `quit()`. -/
def initMqttClient (cfg : MqttConfig) (connectRaises : Bool) : InitOutcome :=
  if connectRaises then
    { logs := [⟨.error,
        "Failed to connect to MQTT Broker: " ++ cfg.host ++ ":" ++ cfg.port⟩],
      terminated := true, mqttConnected := false, influxReady := false }
  else
    { logs := [], terminated := false, mqttConnected := true,
      influxReady := false }

/-- `Mqtt2InfluxDb.__initInfluxDbClient` (lines 58 to 68):
`listDatabases` models `influx.get_list_database()` (the database names, or
a raised exception), `createRaises` whether `influx.create_database`
raises.  Any exception in the `try` block logs the error naming host and
port and calls `quit()`; an absent database is created after an info log. -/
def initInfluxDbClient (cfg : InfluxConfig)
    (listDatabases : Except String (List String)) (createRaises : Bool) :
    InitOutcome :=
  match listDatabases with
  | .error _ =>
    { logs := [⟨.error, "Failed to connect to InfluxDB instance: "
        ++ cfg.host ++ ":" ++ cfg.port⟩],
      terminated := true, mqttConnected := false, influxReady := false }
  | .ok dbs =>
    if dbs.contains cfg.database then
      { logs := [], terminated := false, mqttConnected := false,
        influxReady := true }
    else
      let creating : LogEntry := ⟨.info, "Creating database: " ++ cfg.database⟩
      if createRaises then
        { logs := [creating, ⟨.error, "Failed to connect to InfluxDB instance: "
            ++ cfg.host ++ ":" ++ cfg.port⟩],
          terminated := true, mqttConnected := false, influxReady := false }
      else
        { logs := [creating], terminated := false, mqttConnected := false,
          influxReady := true }

/-- `Mqtt2InfluxDb.__init__`: initialize the MQTT client, then — only when
that did not terminate the process — the InfluxDB client.  `quit()` inside
either step aborts immediately, so a broker failure never reaches the
database step (no partial startup). -/
def bridgeInit (mc : MqttConfig) (ic : InfluxConfig) (connectRaises : Bool)
    (listDatabases : Except String (List String)) (createRaises : Bool) :
    InitOutcome :=
  let m := initMqttClient mc connectRaises
  if m.terminated then m
  else
    let i := initInfluxDbClient ic listDatabases createRaises
    { logs := m.logs ++ i.logs, terminated := i.terminated,
      mqttConnected := true, influxReady := i.influxReady }

/-! ## Helper lemmas -/

/-- Unfolding of `createDataSet` on a payload whose JSON decode succeeds. -/
theorem createDataSet_jsonVal (topic text : String) (j : JVal) :
    createDataSet ⟨topic, .jsonVal text j⟩ =
      match pySubscript j "timestamp" with
      | .error e => .error e
      | .ok tsv =>
        match pyInt tsv with
        | .error e => .error e
        | .ok timestamp =>
          match coerceValue j with
          | .error e => .error e
          | .ok value =>
            .ok [{ measurement := topic,
                   time := fromtimestamp timestamp "Europe/Berlin",
                   fields := [("value", value)] }] := rfl

/-- A successful transform always means the payload decoded to JSON and the
result is a single point. -/
theorem createDataSet_ok_shape (msg : MqttMsg) (pts : List DataPoint)
    (h : createDataSet msg = .ok pts) :
    ∃ text j p, msg.payload = .jsonVal text j ∧ pts = [p] := by
  obtain ⟨topic, payload⟩ := msg
  cases payload with
  | invalidUtf8 => simp [createDataSet, jsonLoads] at h
  | invalidJson t => simp [createDataSet, jsonLoads] at h
  | jsonVal t j =>
    refine ⟨t, j, ?_⟩
    rw [createDataSet_jsonVal] at h
    rcases h1 : pySubscript j "timestamp" with e | tsv <;> simp [h1] at h
    rcases h2 : pyInt tsv with e | T <;> simp [h2] at h
    rcases h3 : coerceValue j with e | v <;> simp [h3] at h
    exact ⟨_, rfl, h.symm⟩

/-- `__onMessage` on a transform failure: the debug line, then the logged
`Decoding of JSON failed` error; nothing written, nothing escapes. -/
theorem onMessage_transform_error (topic text : String) (j : JVal)
    (w : List DataPoint → Except String Unit) (e : PyErr)
    (h : createDataSet ⟨topic, .jsonVal text j⟩ = .error e) :
    onMessage ⟨topic, .jsonVal text j⟩ w =
      { logs := [⟨.debug, "Received: " ++ text ++ " on " ++ topic⟩,
                 ⟨.error, "Decoding of JSON failed: " ++ pyErrStr e⟩],
        written := [], escaped := none } := by
  simp [onMessage, utf8Text, h]

/-- `__onMessage` on a successful transform whose database write raises:
the write error is logged, nothing escapes. -/
theorem onMessage_write_error (topic text : String) (j : JVal)
    (p : DataPoint) (e : String)
    (h : createDataSet ⟨topic, .jsonVal text j⟩ = .ok [p]) :
    onMessage ⟨topic, .jsonVal text j⟩ (fun _ => .error e) =
      { logs := [⟨.debug, "Received: " ++ text ++ " on " ++ topic⟩,
                 ⟨.error, "Failed sending data to influxdb: " ++ e⟩],
        written := [], escaped := none } := by
  simp [onMessage, utf8Text, h]

/-- A message whose callback lets no exception escape does not break the
receive loop: the rest of the messages are processed unchanged. -/
theorem runLoop_cons (m : MqttMsg) (w : List DataPoint → Except String Unit)
    (rest : List (MqttMsg × (List DataPoint → Except String Unit)))
    (h : (onMessage m w).escaped = none) :
    runLoop ((m, w) :: rest) = onMessage m w :: runLoop rest := by
  simp only [runLoop]
  rw [h]

/-! ## Claims -/

/-- C1: for every payload that is a UTF-8 JSON object with an integer
`timestamp` `T` and a string `value` `V` parseable as a float, the transform
`createDataSet` returns a single-element sequence whose one point has
measurement equal to the inbound topic, field `value` equal to the float
`float(V)`, and time equal to the timezone-adjusted instant for epoch `T`
(with the hardcoded `Europe/Berlin` timezone attached). -/
theorem claim_C1_float_string_value (text topic s : String) (T : Int) (q : ℚ)
    (hq : parseFloatStr s = some q) :
    createDataSet ⟨topic,
      .jsonVal text (.jobj [("timestamp", .jint T), ("value", .jstr s)])⟩
    = .ok [{ measurement := topic, time := fromtimestamp T "Europe/Berlin",
             fields := [("value", .fnum q)] }] := by
  rw [createDataSet_jsonVal]
  simp [pySubscript, dictLookup, pyInt, coerceValue, pyFloat, hq]

/-- Witness for C1 at the spec scenario: topic `sensors/temp1`, payload
with timestamp `1700000000` and value `"21.5"`. -/
theorem claim_C1_float_string_value_witness :
    createDataSet ⟨"sensors/temp1",
      .jsonVal "payload" (.jobj [("timestamp", .jint 1700000000),
                                 ("value", .jstr "21.5")])⟩
    = .ok [{ measurement := "sensors/temp1",
             time := fromtimestamp 1700000000 "Europe/Berlin",
             fields := [("value", .fnum (mkRat 43 2))] }] :=
  claim_C1_float_string_value "payload" "sensors/temp1" "21.5" 1700000000
    (mkRat 43 2) (by decide)

/-- C2: for every payload with an integer-coercible `timestamp` and a
`value` `V` on which the `float` coercion fails (an unparseable string such
as `"on"`, or any other non-numeric JSON scalar), the transform succeeds
and the produced point retains `V` unchanged as its `value` field. -/
theorem claim_C2_nonnumeric_value_retained (text topic : String)
    (kvs : List (String × JVal)) (tsv v : JVal) (T : Int) (e : PyErr)
    (hts : dictLookup kvs "timestamp" = some tsv)
    (hT : pyInt tsv = .ok T)
    (hv : dictLookup kvs "value" = some v)
    (hnf : pyFloat v = .error e) :
    createDataSet ⟨topic, .jsonVal text (.jobj kvs)⟩
    = .ok [{ measurement := topic, time := fromtimestamp T "Europe/Berlin",
             fields := [("value", .orig v)] }] := by
  rw [createDataSet_jsonVal]
  simp [pySubscript, hts, hT, coerceValue, hv, hnf]

/-- Witness for C2 at the spec scenario: value `"open"` is not parseable as
a float and is retained unchanged. -/
theorem claim_C2_nonnumeric_value_retained_witness :
    createDataSet ⟨"sensors/door1",
      .jsonVal "payload" (.jobj [("timestamp", .jint 1700000000),
                                 ("value", .jstr "open")])⟩
    = .ok [{ measurement := "sensors/door1",
             time := fromtimestamp 1700000000 "Europe/Berlin",
             fields := [("value", .orig (.jstr "open"))] }] :=
  claim_C2_nonnumeric_value_retained "payload" "sensors/door1"
    [("timestamp", .jint 1700000000), ("value", .jstr "open")]
    (.jint 1700000000) (.jstr "open") 1700000000 .valueError
    rfl rfl rfl rfl

/-- C3: for every payload that is valid UTF-8 JSON but lacks the
`timestamp` key, has a `timestamp` not coercible to an integer, or lacks
the `value` key, the whole transform fails with an error; the message
handler produces and writes no point, logs the error, lets nothing escape,
and the receive loop continues with the remaining messages. -/
theorem claim_C3_missing_fields_fail_transform (text topic : String)
    (kvs : List (String × JVal)) (w : List DataPoint → Except String Unit)
    (hbad : dictLookup kvs "timestamp" = none
      ∨ (∃ tsv e, dictLookup kvs "timestamp" = some tsv ∧ pyInt tsv = .error e)
      ∨ dictLookup kvs "value" = none) :
    ∃ e, createDataSet ⟨topic, .jsonVal text (.jobj kvs)⟩ = .error e
      ∧ onMessage ⟨topic, .jsonVal text (.jobj kvs)⟩ w =
          { logs := [⟨.debug, "Received: " ++ text ++ " on " ++ topic⟩,
                     ⟨.error, "Decoding of JSON failed: " ++ pyErrStr e⟩],
            written := [], escaped := none }
      ∧ ∀ rest, runLoop ((⟨topic, .jsonVal text (.jobj kvs)⟩, w) :: rest)
          = onMessage ⟨topic, .jsonVal text (.jobj kvs)⟩ w :: runLoop rest := by
  have herr : ∃ e, createDataSet ⟨topic, .jsonVal text (.jobj kvs)⟩
      = .error e := by
    rw [createDataSet_jsonVal]
    rcases hbad with h1 | ⟨tsv, e, h1, h2⟩ | h1
    · exact ⟨.keyError "timestamp", by simp [pySubscript, h1]⟩
    · exact ⟨e, by simp [pySubscript, h1, h2]⟩
    · rcases h2 : dictLookup kvs "timestamp" with _ | tsv
      · exact ⟨.keyError "timestamp", by simp [pySubscript, h2]⟩
      · rcases h3 : pyInt tsv with e | T
        · exact ⟨e, by simp [pySubscript, h2, h3]⟩
        · exact ⟨.keyError "value",
            by simp [pySubscript, h2, h3, coerceValue, h1]⟩
  obtain ⟨e, he⟩ := herr
  have hmsg := onMessage_transform_error topic text (.jobj kvs) w e he
  refine ⟨e, he, hmsg, fun rest => runLoop_cons _ _ _ ?_⟩
  rw [hmsg]

/-- Witness for C3: a payload with a `value` but no `timestamp` key. -/
theorem claim_C3_missing_fields_fail_transform_witness :
    ∃ e, createDataSet ⟨"sensors/temp1",
          .jsonVal "payload" (.jobj [("value", .jstr "21.5")])⟩ = .error e
      ∧ onMessage ⟨"sensors/temp1",
          .jsonVal "payload" (.jobj [("value", .jstr "21.5")])⟩
          (fun _ => .ok ()) =
          { logs := [⟨.debug, "Received: " ++ "payload" ++ " on "
                                ++ "sensors/temp1"⟩,
                     ⟨.error, "Decoding of JSON failed: " ++ pyErrStr e⟩],
            written := [], escaped := none }
      ∧ ∀ rest, runLoop ((⟨"sensors/temp1",
            .jsonVal "payload" (.jobj [("value", .jstr "21.5")])⟩,
            fun _ => .ok ()) :: rest)
          = onMessage ⟨"sensors/temp1",
              .jsonVal "payload" (.jobj [("value", .jstr "21.5")])⟩
              (fun _ => .ok ()) :: runLoop rest :=
  claim_C3_missing_fields_fail_transform "payload" "sensors/temp1"
    [("value", .jstr "21.5")] (fun _ => .ok ()) (Or.inl rfl)

/-- C4 counterexample: on a payload that is not valid UTF-8, the
`UnicodeDecodeError` raised by `msg.payload.decode("utf-8")` in the debug
log line — which the source executes BEFORE its `try` block — escapes the
message callback, contradicting the claim that no exception escapes for
every undecodable payload. -/
theorem claim_C4_invalid_utf8_escapes :
    (onMessage ⟨"sensors/temp1", .invalidUtf8⟩ (fun _ => .ok ())).escaped
      = some PyErr.unicodeDecodeError
    ∧ (onMessage ⟨"sensors/temp1", .invalidUtf8⟩ (fun _ => .ok ())).escaped
      ≠ none := ⟨rfl, by simp [onMessage, utf8Text]⟩

/-- C4 amended: for every inbound message whose payload is valid UTF-8 but
not valid JSON, the decode failure raised by `json.loads` is caught and
logged as a non-fatal error — no point is produced or written and no
exception escapes the callback; for a payload that is not valid UTF-8,
however, the UTF-8 decode in the debug-logging statement raises before the
`try` block: no point is produced, but the exception escapes the message
callback (and aborts the receive loop). -/
theorem claim_C4_decode_failure_handling (text topic : String)
    (w : List DataPoint → Except String Unit)
    (rest : List (MqttMsg × (List DataPoint → Except String Unit))) :
    onMessage ⟨topic, .invalidJson text⟩ w =
      { logs := [⟨.debug, "Received: " ++ text ++ " on " ++ topic⟩,
                 ⟨.error, "Decoding of JSON failed: "
                            ++ pyErrStr .jsonDecodeError⟩],
        written := [], escaped := none }
    ∧ (onMessage ⟨topic, .invalidUtf8⟩ w).written = []
    ∧ (onMessage ⟨topic, .invalidUtf8⟩ w).escaped
        = some PyErr.unicodeDecodeError
    ∧ runLoop ((⟨topic, .invalidUtf8⟩, w) :: rest)
        = [onMessage ⟨topic, .invalidUtf8⟩ w] :=
  ⟨rfl, rfl, rfl, rfl⟩

/-- C5: for every message on which the database write raises, the exception
is caught inside the callback, logged at error level with the underlying
text, nothing is written, nothing escapes, and the receive loop goes on to
process the remaining messages unchanged. -/
theorem claim_C5_write_failure_nonfatal (msg : MqttMsg)
    (pts : List DataPoint) (e : String)
    (hok : createDataSet msg = .ok pts) :
    (onMessage msg (fun _ => .error e)).escaped = none
    ∧ LogEntry.mk .error ("Failed sending data to influxdb: " ++ e)
        ∈ (onMessage msg (fun _ => .error e)).logs
    ∧ (onMessage msg (fun _ => .error e)).written = []
    ∧ ∀ rest, runLoop ((msg, fun _ => .error e) :: rest)
        = onMessage msg (fun _ => .error e) :: runLoop rest := by
  obtain ⟨text, j, p, hp, hpts⟩ := createDataSet_ok_shape msg pts hok
  obtain ⟨topic, payload⟩ := msg
  simp only at hp
  subst hp
  subst hpts
  have hmsg := onMessage_write_error topic text j p e hok
  exact ⟨by rw [hmsg], by rw [hmsg]; simp, by rw [hmsg],
    fun rest => runLoop_cons _ _ _ (by rw [hmsg])⟩

/-- Witness for C5: the valid `sensors/temp1` message with a failing write. -/
theorem claim_C5_write_failure_nonfatal_witness :
    (onMessage ⟨"sensors/temp1",
        .jsonVal "payload" (.jobj [("timestamp", .jint 1700000000),
                                   ("value", .jstr "21.5")])⟩
      (fun _ => .error "write failed")).escaped = none
    ∧ LogEntry.mk .error ("Failed sending data to influxdb: " ++ "write failed")
        ∈ (onMessage ⟨"sensors/temp1",
            .jsonVal "payload" (.jobj [("timestamp", .jint 1700000000),
                                       ("value", .jstr "21.5")])⟩
          (fun _ => .error "write failed")).logs
    ∧ (onMessage ⟨"sensors/temp1",
        .jsonVal "payload" (.jobj [("timestamp", .jint 1700000000),
                                   ("value", .jstr "21.5")])⟩
      (fun _ => .error "write failed")).written = []
    ∧ ∀ rest, runLoop ((⟨"sensors/temp1",
          .jsonVal "payload" (.jobj [("timestamp", .jint 1700000000),
                                     ("value", .jstr "21.5")])⟩,
          fun _ => .error "write failed") :: rest)
        = onMessage ⟨"sensors/temp1",
            .jsonVal "payload" (.jobj [("timestamp", .jint 1700000000),
                                       ("value", .jstr "21.5")])⟩
          (fun _ => .error "write failed") :: runLoop rest :=
  claim_C5_write_failure_nonfatal _
    [{ measurement := "sensors/temp1",
       time := fromtimestamp 1700000000 "Europe/Berlin",
       fields := [("value", .fnum (mkRat 43 2))] }] "write failed" rfl

/-- C6: if the initial broker connection fails, initialization logs an
error naming the broker host and port and terminates the process at once —
the InfluxDB client is never brought up (no partial startup) and there is
no second attempt; likewise, if listing the databases fails during the
initial InfluxDB reachability check, an error naming the database host and
port is logged and the process terminates at once.  (The source terminates
through `quit()`, an abrupt `SystemExit`; the numeric exit status is
process-level behaviour outside this model.) -/
theorem claim_C6_startup_failures_fatal (mc : MqttConfig) (ic : InfluxConfig)
    (listDatabases : Except String (List String)) (createRaises : Bool)
    (err : String) :
    bridgeInit mc ic true listDatabases createRaises =
      { logs := [⟨.error,
          "Failed to connect to MQTT Broker: " ++ mc.host ++ ":" ++ mc.port⟩],
        terminated := true, mqttConnected := false, influxReady := false }
    ∧ bridgeInit mc ic false (.error err) createRaises =
      { logs := [⟨.error, "Failed to connect to InfluxDB instance: "
          ++ ic.host ++ ":" ++ ic.port⟩],
        terminated := true, mqttConnected := true, influxReady := false } :=
  ⟨rfl, rfl⟩

/-- C7: for every payload with an integer-coercible `timestamp` `T`, the
transform interprets `T` as seconds since the epoch and attaches the fixed,
hardcoded Central European timezone `Europe/Berlin`, and every point the
transform produces carries exactly that timezone-aware instant. -/
theorem claim_C7_timestamp_epoch_cet (msg : MqttMsg) (text : String)
    (j tsv : JVal) (T : Int) (pts : List DataPoint)
    (hp : msg.payload = .jsonVal text j)
    (hts : pySubscript j "timestamp" = .ok tsv)
    (hT : pyInt tsv = .ok T)
    (hok : createDataSet msg = .ok pts) :
    ∀ p ∈ pts, p.time = fromtimestamp T "Europe/Berlin" := by
  obtain ⟨topic, payload⟩ := msg
  simp only at hp
  subst hp
  rw [createDataSet_jsonVal] at hok
  simp only [hts, hT] at hok
  rcases h3 : coerceValue j with e | v <;> simp [h3] at hok
  subst hok
  intro p hmem
  simp at hmem
  subst hmem
  rfl

/-- Witness for C7 at timestamp `1700000000`: the one produced point
carries the `Europe/Berlin` instant for that epoch. -/
theorem claim_C7_timestamp_epoch_cet_witness :
    DataPoint.time
      { measurement := "sensors/temp1",
        time := fromtimestamp 1700000000 "Europe/Berlin",
        fields := [("value", FieldValue.fnum (mkRat 43 2))] }
      = fromtimestamp 1700000000 "Europe/Berlin" :=
  claim_C7_timestamp_epoch_cet
    ⟨"sensors/temp1", .jsonVal "payload"
      (.jobj [("timestamp", .jint 1700000000), ("value", .jstr "21.5")])⟩
    "payload"
    (.jobj [("timestamp", .jint 1700000000), ("value", .jstr "21.5")])
    (.jint 1700000000) 1700000000 _ rfl rfl rfl rfl
    { measurement := "sensors/temp1",
      time := fromtimestamp 1700000000 "Europe/Berlin",
      fields := [("value", FieldValue.fnum (mkRat 43 2))] }
    (List.mem_singleton.mpr rfl)

/-- C8: the transform is a pure, deterministic function of the payload
bytes and the topic: any two messages agreeing on payload and topic — in
particular the same message transformed twice — yield identical results
(same measurement, time and value), with no hidden state involved. -/
theorem claim_C8_transform_deterministic (m₁ m₂ : MqttMsg)
    (hp : m₁.payload = m₂.payload) (ht : m₁.topic = m₂.topic) :
    createDataSet m₁ = createDataSet m₂ := by
  obtain ⟨t₁, p₁⟩ := m₁
  obtain ⟨t₂, p₂⟩ := m₂
  simp only at hp ht
  subst hp
  subst ht
  rfl

/-- Witness for C8: the same concrete message twice. -/
theorem claim_C8_transform_deterministic_witness :
    createDataSet ⟨"sensors/temp1",
      .jsonVal "payload" (.jobj [("timestamp", .jint 1700000000),
                                 ("value", .jstr "21.5")])⟩
    = createDataSet ⟨"sensors/temp1",
      .jsonVal "payload" (.jobj [("timestamp", .jint 1700000000),
                                 ("value", .jstr "21.5")])⟩ :=
  claim_C8_transform_deterministic _ _ rfl rfl

/-- C9: the transform depends only on the `timestamp` and `value` entries
of the decoded JSON object and on the topic: two object payloads agreeing
on those two keys produce identical results, whatever other keys they
carry — extra keys are ignored and never copied into the data point. -/
theorem claim_C9_extra_keys_ignored (t₁ t₂ topic : String)
    (kvs₁ kvs₂ : List (String × JVal))
    (hts : dictLookup kvs₁ "timestamp" = dictLookup kvs₂ "timestamp")
    (hv : dictLookup kvs₁ "value" = dictLookup kvs₂ "value") :
    createDataSet ⟨topic, .jsonVal t₁ (.jobj kvs₁)⟩
      = createDataSet ⟨topic, .jsonVal t₂ (.jobj kvs₂)⟩ := by
  rw [createDataSet_jsonVal, createDataSet_jsonVal]
  simp only [pySubscript, coerceValue, hts, hv]

/-- Witness for C9: an extra `unit` key changes nothing. -/
theorem claim_C9_extra_keys_ignored_witness :
    createDataSet ⟨"sensors/temp1",
      .jsonVal "a" (.jobj [("timestamp", .jint 1700000000),
                           ("value", .jstr "21.5"),
                           ("unit", .jstr "C")])⟩
    = createDataSet ⟨"sensors/temp1",
      .jsonVal "b" (.jobj [("timestamp", .jint 1700000000),
                           ("value", .jstr "21.5")])⟩ :=
  claim_C9_extra_keys_ignored "a" "b" "sensors/temp1"
    [("timestamp", .jint 1700000000), ("value", .jstr "21.5"),
     ("unit", .jstr "C")]
    [("timestamp", .jint 1700000000), ("value", .jstr "21.5")]
    rfl rfl

/-- C10: for every payload whose `value` is the JSON boolean `true` or
`false`, the `float` coercion succeeds (Python `float(bool)`), so the
produced point carries the float `1.0` or `0.0` respectively — the boolean
is not retained unchanged. -/
theorem claim_C10_bool_value_coerced (text topic : String)
    (kvs : List (String × JVal)) (tsv : JVal) (T : Int) (b : Bool)
    (hts : dictLookup kvs "timestamp" = some tsv)
    (hT : pyInt tsv = .ok T)
    (hv : dictLookup kvs "value" = some (.jbool b)) :
    createDataSet ⟨topic, .jsonVal text (.jobj kvs)⟩
    = .ok [{ measurement := topic, time := fromtimestamp T "Europe/Berlin",
             fields := [("value", .fnum (if b then 1 else 0))] }] := by
  rw [createDataSet_jsonVal]
  simp only [pySubscript, hts, hT, coerceValue, hv, pyFloat]
  cases b <;> norm_num [Rat.mkRat_eq_div]

/-- Witness for C10 with the boolean `true`. -/
theorem claim_C10_bool_value_coerced_witness :
    createDataSet ⟨"sensors/door1",
      .jsonVal "payload" (.jobj [("timestamp", .jint 1700000000),
                                 ("value", .jbool true)])⟩
    = .ok [{ measurement := "sensors/door1",
             time := fromtimestamp 1700000000 "Europe/Berlin",
             fields := [("value", .fnum (if true then 1 else 0))] }] :=
  claim_C10_bool_value_coerced "payload" "sensors/door1"
    [("timestamp", .jint 1700000000), ("value", .jbool true)]
    (.jint 1700000000) 1700000000 true rfl rfl rfl
